import Mathlib

/-!
# Verification of the threaded_logger crate (src/lib.rs)

A shallow embedding of the deferred log dispatch pipeline:
the facade logger `ThreadedLogger` (methods `enabled`, `log`, `flush`),
the set-once sink slot `INNER_LOGGER`, the unbounded crossbeam channel of
replay closures, the drain-consumer loop spawned by `try_init` via
`tokio::task::spawn_blocking`, and the entry points `try_init` and `init`.

Machine-level conventions: Rust strings are Lean `String`; `Option` models
Rust `Option`; channel queues are Lean lists (send pushes to the back, recv
pops from the front, matching FIFO channel semantics); panics and returned
errors are explicit constructors of outcome types.
-/

/-- `log::Level` (log crate): Error < Warn < Info < Debug < Trace. -/
inductive Level
  | error
  | warn
  | info
  | debug
  | trace
deriving DecidableEq, Repr

/-- `log::LevelFilter` (log crate): `Level` plus `Off`. -/
inductive LevelFilter
  | off
  | error
  | warn
  | info
  | debug
  | trace
deriving DecidableEq, Repr

/-- `log::Metadata`: the level and target of a record, as rebuilt by the
replay closure via `Metadata::builder().level(level).target(&target)`. -/
structure Metadata where
  level : Level
  target : String
deriving DecidableEq, Repr

/-- `std::fmt::Arguments`: either a plain pre-rendered string (in which case
`as_str` returns it) or a formatting template whose rendering
(`fmt::format`) produces a string. In the Rust type, `as_str` returns
`Some s` exactly when the template is the literal `s` with no arguments,
and then `fmt::format` also renders to `s`; the embedding carries the
rendered text in both constructors to reflect that. -/
inductive Args
  | plain (s : String)
  | template (rendered : String)
deriving DecidableEq, Repr

/-- `Arguments::as_str`: `Some` only for a plain literal string. -/
def Args.as_str : Args → Option String
  | .plain s => some s
  | .template _ => none

/-- `fmt::format(args)`: render the arguments to an owned `String`. -/
def Args.format : Args → String
  | .plain s => s
  | .template r => r

/-- `std::borrow::Cow<str>`, as used by `ThreadedLogger::log` to hold either
a borrowed `&'static str` or an eagerly rendered owned `String`. -/
inductive Cow
  | borrowed (s : String)
  | owned (s : String)
deriving DecidableEq, Repr

/-- Dereferencing a `Cow<str>` to its string content. -/
def Cow.deref : Cow → String
  | .borrowed s => s
  | .owned s => s

/-- `Option<Cow<str>>` dereferenced with `as_deref`. -/
def Cow.as_deref : Option Cow → Option String
  | none => none
  | some c => some c.deref

/-- A `log::Record` as passed by a caller to `Log::log`: level, target,
message arguments, optional module path, optional file, optional line.
The flags record whether the module path and file are available as
`&'static str` (so `module_path_static` / `file_static` return them). -/
structure InputRecord where
  level : Level
  target : String
  args : Args
  module_path : Option String
  module_path_static_flag : Bool
  file : Option String
  file_static_flag : Bool
  line : Option Nat
deriving DecidableEq, Repr

/-- `Record::module_path_static`: the module path only when it is known as
a static string. -/
def InputRecord.module_path_static (r : InputRecord) : Option String :=
  if r.module_path_static_flag then r.module_path else none

/-- `Record::file_static`: the file only when it is known as a static
string. -/
def InputRecord.file_static (r : InputRecord) : Option String :=
  if r.file_static_flag then r.file else none

/-- The owned snapshot captured by `ThreadedLogger::log` and moved into the
replay closure: level, owned target, `Cow` message text, `Cow` module path
and file, and line. -/
structure Snapshot where
  level : Level
  target : String
  args_str : Cow
  module_path : Option Cow
  file : Option Cow
  line : Option Nat
deriving DecidableEq, Repr

/-- The message capture of `ThreadedLogger::log`:
`if let Some(s) = record.args().as_str() { Cow::Borrowed(s) } else
{ Cow::Owned(fmt::format(*record.args())) }`. -/
def snapArgs (r : InputRecord) : Cow :=
  match r.args.as_str with
  | some s => Cow.borrowed s
  | none => Cow.owned r.args.format

/-- The module-path capture of `ThreadedLogger::log`:
static reference if available, otherwise an owned copy. -/
def snapModulePath (r : InputRecord) : Option Cow :=
  match r.module_path_static with
  | some s => some (Cow.borrowed s)
  | none => r.module_path.map (fun s => Cow.owned s)

/-- The file capture of `ThreadedLogger::log`: static reference if
available, otherwise an owned copy. -/
def snapFile (r : InputRecord) : Option Cow :=
  match r.file_static with
  | some s => some (Cow.borrowed s)
  | none => r.file.map (fun s => Cow.owned s)

/-- The full snapshot built by `ThreadedLogger::log` before sending the
replay closure: owned level, target, rendered message, module path, file,
line. -/
def snapshot (r : InputRecord) : Snapshot :=
  { level := r.level
  , target := r.target
  , args_str := snapArgs r
  , module_path := snapModulePath r
  , file := snapFile r
  , line := r.line }

/-- The record actually received by the inner sink `Log::log`, with its
message rendered to text: what the sink can observe of a `log::Record`.
For the original borrowed record the message is the rendering of its
arguments; for the replayed record it is the rendering of
`format_args!("{}", args_str)`, i.e. the snapshot text itself. -/
structure SinkRecord where
  level : Level
  target : String
  message : String
  module_path : Option String
  file : Option String
  line : Option Nat
deriving DecidableEq, Repr

/-- The record the replay closure reconstructs inside the drain consumer:
`Record::builder().metadata(Metadata{level, target})
.args(format_args!("{}", args_str)).module_path(module_path.as_deref())
.file(file.as_deref()).line(line).build()`. -/
def replayRecord (s : Snapshot) : SinkRecord :=
  { level := s.level
  , target := s.target
  , message := s.args_str.deref
  , module_path := Cow.as_deref s.module_path
  , file := Cow.as_deref s.file
  , line := s.line }

/-- The record a direct synchronous call `sink.log(record)` with the same
inputs would have received (the original record, message rendered). -/
def directRecord (r : InputRecord) : SinkRecord :=
  { level := r.level
  , target := r.target
  , message := r.args.format
  , module_path := r.module_path
  , file := r.file
  , line := r.line }

/-- The observable state of the inner sink: the rendered records its `log`
was invoked with, in order, and the number of `flush` invocations. The
enablement predicate is the sink behaviour consulted by `enabled`. -/
structure SinkObs where
  logged : List SinkRecord
  flushes : Nat
deriving DecidableEq, Repr

/-- The runtime state of the installed pipeline: the inner sink behaviour
and observations, the FIFO queue of the unbounded crossbeam channel
(holding the snapshots captured by the pending replay closures), and the
liveness of the two channel endpoints. -/
structure LogSystem where
  enabledFn : Metadata → Bool
  sink : SinkObs
  queue : List Snapshot
  receiverDropped : Bool
  sendersDropped : Bool

/-- `Sender::send` on the unbounded crossbeam channel: enqueues at the back
and returns `Ok`, unless the receiver has been dropped, in which case the
message is rejected and `Err(SendError(msg))` is returned. -/
def Channel.send (st : LogSystem) (s : Snapshot) : Option Unit × LogSystem :=
  if st.receiverDropped then (none, st)
  else (some (), { st with queue := st.queue ++ [s] })

/-- The result of `Receiver::recv`: a message, an immediate
disconnection error (channel empty and all senders dropped), or blocking
until a message arrives. -/
inductive RecvResult
  | ok (s : Snapshot)
  | disconnected
  | blocked
deriving DecidableEq, Repr

/-- `Receiver::recv` on the crossbeam channel: pops the oldest message;
on an empty channel it returns `Err(RecvError)` if every sender is
dropped, and otherwise blocks. -/
def Channel.recv (st : LogSystem) : RecvResult :=
  match st.queue with
  | s :: _ => .ok s
  | [] => if st.sendersDropped then .disconnected else .blocked

/-- `ThreadedLogger::enabled`: delegates directly to
`self.logger.enabled(metadata)`, touching no other state. -/
def ThreadedLogger.enabled (st : LogSystem) (m : Metadata) : Bool × LogSystem :=
  (st.enabledFn m, st)

/-- `ThreadedLogger::log`: captures the snapshot, wraps it in a replay
closure, and sends it on the channel, discarding the send result with
`.ok()`. Always returns normally (the function is total: no panic, no
error). -/
def ThreadedLogger.log (st : LogSystem) (r : InputRecord) : LogSystem :=
  let st' := (Channel.send st (snapshot r)).2
  st'

/-- `ThreadedLogger::flush`: delegates synchronously to
`self.logger.flush()`; the queue of pending snapshots is not consulted. -/
def ThreadedLogger.flush (st : LogSystem) : LogSystem :=
  { st with sink := { st.sink with flushes := st.sink.flushes + 1 } }

/-- Rust loop control flow: whether an iteration of the consumer loop
falls through to the next iteration or breaks out of the loop. -/
inductive LoopControl
  | next
  | stop
deriving DecidableEq, Repr

/-- One iteration of the drain-consumer loop spawned by `try_init`:
`loop { if let Ok(log) = receiver.recv() { log(); } }`. On a message, the
replay closure runs to completion (the sink logs the reconstructed
record); on a disconnection error the `if let` falls through and the loop
repeats; a blocked `recv` is modelled as a stutter iteration awaiting a
message. No branch breaks the loop. -/
def consumerBody (st : LogSystem) : LoopControl × LogSystem :=
  match Channel.recv st with
  | .ok s =>
      (.next,
        { st with
          queue := st.queue.tail
          sink := { st.sink with logged := st.sink.logged ++ [replayRecord s] } })
  | .disconnected => (.next, st)
  | .blocked => (.next, st)

/-- The state transformation of one consumer iteration. -/
def consumerStep (st : LogSystem) : LogSystem :=
  (consumerBody st).2

/-- Running the consumer loop for up to `n` iterations; the boolean records
whether the loop exited (broke) within those iterations. -/
def runConsumerLoop : Nat → LogSystem → Bool × LogSystem
  | 0, st => (false, st)
  | n + 1, st =>
      match consumerBody st with
      | (.stop, st') => (true, st')
      | (.next, st') => runConsumerLoop n st'

/-- A scheduling action of the pipeline: one producer `log` call completes,
or the consumer performs one iteration. -/
inductive SchedAction
  | produce
  | consume
deriving DecidableEq, Repr

/-- A producer-side execution state: the events the single producer has not
yet logged, and the pipeline state. -/
structure ProdState where
  pending : List InputRecord
  sys : LogSystem

/-- One scheduled step of the pipeline: `produce` runs the next
`ThreadedLogger::log` call of the single producer (a no-op when it has
none left), `consume` runs one consumer iteration. -/
def schedStep (ps : ProdState) : SchedAction → ProdState
  | .produce =>
      match ps.pending with
      | [] => ps
      | e :: es => { pending := es, sys := ThreadedLogger.log ps.sys e }
  | .consume => { ps with sys := consumerStep ps.sys }

/-- Running the pipeline under an arbitrary interleaving of producer and
consumer steps. -/
def runSched (sched : List SchedAction) (ps : ProdState) : ProdState :=
  sched.foldl schedStep ps

/-- The initial pipeline state right after a successful install: empty
queue, no sink observations, both endpoints alive. -/
def initSystem (enabledFn : Metadata → Bool) : LogSystem :=
  { enabledFn := enabledFn
  , sink := { logged := [], flushes := 0 }
  , queue := []
  , receiverDropped := false
  , sendersDropped := false }

/-- The records observable at the sink together with those still queued:
the linearisation of the pipeline contents. -/
def obs (st : LogSystem) : List SinkRecord :=
  st.sink.logged ++ st.queue.map replayRecord

/-- The invariant of a single-producer run: endpoints alive, and the
pipeline contents are exactly the replayed snapshots of the events
produced so far, in production order. -/
def ProdInv (events : List InputRecord) (ps : ProdState) : Prop :=
  ps.sys.receiverDropped = false ∧ ps.sys.sendersDropped = false ∧
    ∃ produced, events = produced ++ ps.pending ∧
      obs ps.sys = produced.map (fun e => replayRecord (snapshot e))

/-- The outcome of a call to `try_init`: `Ok(())`, the returned error
`ThreadedLoggerError(())`, or a panic raised inside
`tokio::task::spawn_blocking` when no Tokio runtime context is active. -/
inductive TryInitResult
  | ok
  | alreadySet
  | panicked
deriving DecidableEq, Repr

/-- The process-wide installation state: the set-once `INNER_LOGGER`
`OnceCell` (sinks identified by a numeric id), whether the `log` crate has
a registered global logger (`log::set_boxed_logger` succeeds exactly when
it does not), the global max-level filter, and the number of
drain-consumer tasks that have been spawned. -/
structure InstallState where
  innerLogger : Option Nat
  globalLogger : Bool
  maxLevel : LevelFilter
  consumers : Nat
deriving DecidableEq, Repr

/-- The tail of `try_init` after `INNER_LOGGER.set` has succeeded:
`log::set_boxed_logger` (fails iff a global logger is already registered),
`log::set_max_level` only when registration succeeded, then
`tokio::task::spawn_blocking` of the consumer loop — which, per the
documented tokio contract (external dependency, not in this repository),
panics when called outside a Tokio runtime context. -/
def afterWin (maxLevel : LevelFilter) (inRuntime : Bool) (st : InstallState) :
    TryInitResult × InstallState :=
  let p :=
    if st.globalLogger then (TryInitResult.alreadySet, st)
    else (TryInitResult.ok, { st with globalLogger := true, maxLevel := maxLevel })
  if inRuntime then (p.1, { p.2 with consumers := p.2.consumers + 1 })
  else (TryInitResult.panicked, p.2)

/-- `try_init(logger, max_level)`: create the channel, attempt
`INNER_LOGGER.set` (the `?` returns the error immediately on failure),
then register, set the filter on success, and spawn the consumer. -/
def try_init (sink : Nat) (maxLevel : LevelFilter) (inRuntime : Bool)
    (st : InstallState) : TryInitResult × InstallState :=
  match st.innerLogger with
  | some _ => (TryInitResult.alreadySet, st)
  | none => afterWin maxLevel inRuntime { st with innerLogger := some sink }

/-- The outcome of a call to `init`: normal return or panic. -/
inductive InitOutcome
  | ok
  | panicked
deriving DecidableEq, Repr

/-- `init(logger, max_level)`: `try_init(logger, max_level).unwrap()` —
the `unwrap` panics on a returned error, and a panic inside `try_init`
propagates. -/
def init (sink : Nat) (maxLevel : LevelFilter) (inRuntime : Bool)
    (st : InstallState) : InitOutcome × InstallState :=
  match try_init sink maxLevel inRuntime st with
  | (TryInitResult.ok, st') => (InitOutcome.ok, st')
  | (TryInitResult.alreadySet, st') => (InitOutcome.panicked, st')
  | (TryInitResult.panicked, st') => (InitOutcome.panicked, st')

/-- The spec-side description of the panicking entry point: run the
fallible entry point `try_init` and treat any non-`Ok` outcome as fatal
(process-terminating), leaving the side effects it performed in place. -/
def initSpec (sink : Nat) (maxLevel : LevelFilter) (inRuntime : Bool)
    (st : InstallState) : InitOutcome × InstallState :=
  let r := try_init sink maxLevel inRuntime st
  (if r.1 = TryInitResult.ok then InitOutcome.ok else InitOutcome.panicked, r.2)

/-- The installation state of a fresh process: empty sink slot, no global
logger registered, filter at its `log`-crate default `Off`, no consumer
spawned. -/
def cleanState : InstallState :=
  { innerLogger := none, globalLogger := false, maxLevel := LevelFilter.off
  , consumers := 0 }

/-- The progress of one thread racing through `try_init` (with a Tokio
runtime active): before the `INNER_LOGGER.set` attempt, having won the
set (about to register and spawn), or finished with a result. The set is
the only shared-state decision point before `won`, and only the unique
set winner ever executes the `won` stage, so the stages are a faithful
atomicity granularity for this race. -/
inductive ThreadState
  | ready
  | won
  | done (r : TryInitResult)
deriving DecidableEq, Repr

/-- The shared installation state together with the two racing threads. -/
structure RaceState where
  global : InstallState
  t0 : ThreadState
  t1 : ThreadState
deriving DecidableEq, Repr

/-- One atomic step of a single thread running `try_init sink lvl` with a
runtime active: the `OnceCell.set` attempt from `ready`, or the
registration/filter/spawn tail from `won`. -/
def threadStep (sink : Nat) (lvl : LevelFilter) (g : InstallState)
    (t : ThreadState) : InstallState × ThreadState :=
  match t with
  | ThreadState.ready =>
      match g.innerLogger with
      | some _ => (g, ThreadState.done TryInitResult.alreadySet)
      | none => ({ g with innerLogger := some sink }, ThreadState.won)
  | ThreadState.won =>
      let p := afterWin lvl true g
      (p.2, ThreadState.done p.1)
  | ThreadState.done r => (g, ThreadState.done r)

/-- One scheduler step of the race: thread 1 steps when `i` is true,
thread 0 otherwise. -/
def raceStep (s0 s1 : Nat) (l0 l1 : LevelFilter) (rs : RaceState) (i : Bool) :
    RaceState :=
  if i then
    let p := threadStep s1 l1 rs.global rs.t1
    { rs with global := p.1, t1 := p.2 }
  else
    let p := threadStep s0 l0 rs.global rs.t0
    { rs with global := p.1, t0 := p.2 }

/-- Running the race of two concurrent `try_init` calls under an arbitrary
interleaving. -/
def runRace (s0 s1 : Nat) (l0 l1 : LevelFilter) (sched : List Bool)
    (rs : RaceState) : RaceState :=
  sched.foldl (raceStep s0 s1 l0 l1) rs

/-- The reachable configurations of the race started from a clean state:
either nothing has happened, or exactly one thread has won the set-once
slot (and possibly finished with `Ok`), while the other is untouched or
has failed with the already-set error. -/
def RaceInv (s0 s1 : Nat) (l0 l1 : LevelFilter) (rs : RaceState) : Prop :=
  (rs.t0 = ThreadState.ready ∧ rs.t1 = ThreadState.ready ∧ rs.global = cleanState)
  ∨ (rs.t0 = ThreadState.won ∧
      rs.global = { cleanState with innerLogger := some s0 } ∧
      (rs.t1 = ThreadState.ready ∨ rs.t1 = ThreadState.done TryInitResult.alreadySet))
  ∨ (rs.t0 = ThreadState.done TryInitResult.ok ∧
      rs.global = ⟨some s0, true, l0, 1⟩ ∧
      (rs.t1 = ThreadState.ready ∨ rs.t1 = ThreadState.done TryInitResult.alreadySet))
  ∨ (rs.t1 = ThreadState.won ∧
      rs.global = { cleanState with innerLogger := some s1 } ∧
      (rs.t0 = ThreadState.ready ∨ rs.t0 = ThreadState.done TryInitResult.alreadySet))
  ∨ (rs.t1 = ThreadState.done TryInitResult.ok ∧
      rs.global = ⟨some s1, true, l1, 1⟩ ∧
      (rs.t0 = ThreadState.ready ∨ rs.t0 = ThreadState.done TryInitResult.alreadySet))

/-- A sample log event whose message is a formatting template and whose
module path is not a static string. -/
def sampleRecord : InputRecord :=
  { level := Level.info
  , target := "t"
  , args := Args.template "x = 1"
  , module_path := some "app::demo"
  , module_path_static_flag := false
  , file := some "main.rs"
  , file_static_flag := true
  , line := some 42 }

/-- A second sample log event with a plain pre-rendered message. -/
def sampleRecord2 : InputRecord :=
  { level := Level.warn
  , target := "t"
  , args := Args.plain "hello"
  , module_path := none
  , module_path_static_flag := true
  , file := none
  , file_static_flag := false
  , line := none }

/-- A freshly installed pipeline whose sink enables everything. -/
def sampleSystem : LogSystem := initSystem (fun _ => true)

/-- A two-event single-producer run. -/
def c2events : List InputRecord := [sampleRecord, sampleRecord2]

/-- A schedule producing both events and then draining both. -/
def c2sched : List SchedAction :=
  [SchedAction.produce, SchedAction.produce, SchedAction.consume, SchedAction.consume]

/-- The starting configuration of the two-thread install race: clean
process state, both calls yet to run. -/
def raceStart : RaceState :=
  { global := cleanState, t0 := ThreadState.ready, t1 := ThreadState.ready }

/-- A process state in which a global logger is already registered but
the sink slot is empty: `log::set_boxed_logger` will fail there. -/
def regFailState : InstallState :=
  { innerLogger := none, globalLogger := true
  , maxLevel := LevelFilter.off, consumers := 0 }

/-- A process state whose sink slot is already occupied. -/
def occupiedState : InstallState :=
  { innerLogger := some 5, globalLogger := true
  , maxLevel := LevelFilter.off, consumers := 1 }

/-- The interleaving used as the concrete race witness: thread 0 runs both
of its stages, then thread 1 attempts the set. -/
def c4sched : List Bool := [false, false, true]

/-- A race configuration whose shared slot is already occupied. -/
def c4rs : RaceState :=
  { global := occupiedState, t0 := ThreadState.ready, t1 := ThreadState.ready }

/-- A pipeline state in which every sender has been dropped and the queue
is empty. -/
def droppedSendersSystem : LogSystem := { sampleSystem with sendersDropped := true }

/-- A pipeline state whose receiver has been dropped. -/
def droppedReceiverSystem : LogSystem := { sampleSystem with receiverDropped := true }

/-- The snapshot message dereferences to the rendering of the original
arguments. -/
lemma snapArgs_deref (r : InputRecord) : (snapArgs r).deref = r.args.format := by
  cases h : r.args <;> simp [snapArgs, h, Args.as_str, Args.format, Cow.deref]

/-- The captured module path dereferences to the original module path. -/
lemma snapModulePath_deref (r : InputRecord) :
    Cow.as_deref (snapModulePath r) = r.module_path := by
  unfold snapModulePath InputRecord.module_path_static
  by_cases h : r.module_path_static_flag <;>
    cases hm : r.module_path <;>
      simp [h, hm, Cow.as_deref, Cow.deref]

/-- The captured file dereferences to the original file. -/
lemma snapFile_deref (r : InputRecord) :
    Cow.as_deref (snapFile r) = r.file := by
  unfold snapFile InputRecord.file_static
  by_cases h : r.file_static_flag <;>
    cases hm : r.file <;>
      simp [h, hm, Cow.as_deref, Cow.deref]

/-- Core fidelity lemma: replaying the snapshot of a record presents the
sink with exactly the record a direct synchronous call would have
presented. -/
lemma replay_snapshot_eq_direct (r : InputRecord) :
    replayRecord (snapshot r) = directRecord r := by
  simp [replayRecord, snapshot, directRecord, snapArgs_deref,
    snapModulePath_deref, snapFile_deref]

/-- A consumer iteration on an empty, still-connected channel is a
stutter. -/
lemma consumerStep_nil (st : LogSystem) (hq : st.queue = [])
    (hs : st.sendersDropped = false) : consumerStep st = st := by
  simp [consumerStep, consumerBody, Channel.recv, hq, hs]

/-- A consumer iteration on a nonempty channel replays the oldest snapshot
into the sink and pops it from the queue. -/
lemma consumerStep_cons (st : LogSystem) (s : Snapshot) (rest : List Snapshot)
    (hq : st.queue = s :: rest) :
    consumerStep st =
      { st with queue := rest
              , sink := { st.sink with
                  logged := st.sink.logged ++ [replayRecord s] } } := by
  simp [consumerStep, consumerBody, Channel.recv, hq]

/-- One scheduled step preserves the single-producer invariant. -/
lemma prodInv_step (events : List InputRecord) (ps : ProdState) (a : SchedAction)
    (h : ProdInv events ps) : ProdInv events (schedStep ps a) := by
  obtain ⟨hr, hs, produced, hev, hobs⟩ := h
  cases a with
  | produce =>
      cases hp : ps.pending with
      | nil =>
          simp only [schedStep, hp]
          exact ⟨hr, hs, produced, by simp only [hp, List.append_nil] at hev ⊢; exact hev, hobs⟩
      | cons e es =>
          simp only [schedStep, hp]
          refine ⟨?_, ?_, produced ++ [e], ?_, ?_⟩
          · simp [ThreadedLogger.log, Channel.send, hr]
          · simp [ThreadedLogger.log, Channel.send, hr, hs]
          · rw [hev, hp]; simp
          · simp only [ThreadedLogger.log, Channel.send, hr, Bool.false_eq_true,
              if_false, obs, List.map_append, List.map_cons, List.map_nil]
            simp only [obs] at hobs
            rw [← List.append_assoc, hobs]
  | consume =>
      cases hq : ps.sys.queue with
      | nil =>
          have hst := consumerStep_nil ps.sys hq hs
          exact ⟨by simp [schedStep, hst, hr], by simp [schedStep, hst, hs],
            produced, hev, by simp [schedStep, hst, hobs]⟩
      | cons s rest =>
          have hcs := consumerStep_cons ps.sys s rest hq
          refine ⟨by simp [schedStep, hcs, hr], by simp [schedStep, hcs, hs],
            produced, hev, ?_⟩
          simp only [schedStep, hcs, obs]
          simp only [obs, hq, List.map_cons] at hobs
          simpa using hobs

/-- The single-producer invariant holds after any schedule. -/
lemma prodInv_runSched (events : List InputRecord) (sched : List SchedAction)
    (ps : ProdState) (h : ProdInv events ps) :
    ProdInv events (runSched sched ps) := by
  induction sched generalizing ps with
  | nil => simpa [runSched]
  | cons a rest ih =>
      have := prodInv_step events ps a h
      simpa [runSched, List.foldl] using ih (schedStep ps a) this

/-- One race step preserves the reachable-configuration invariant. -/
lemma raceInv_step (s0 s1 : Nat) (l0 l1 : LevelFilter) (rs : RaceState)
    (i : Bool) (h : RaceInv s0 s1 l0 l1 rs) :
    RaceInv s0 s1 l0 l1 (raceStep s0 s1 l0 l1 rs i) := by
  rcases h with ⟨h0, h1, hg⟩ | ⟨h0, hg, h1⟩ | ⟨h0, hg, h1⟩ | ⟨h1, hg, h0⟩ | ⟨h1, hg, h0⟩
  · cases i
    · right; left
      constructor
      · simp [raceStep, threadStep, h0, hg, cleanState]
      · constructor
        · simp [raceStep, threadStep, h0, hg, cleanState]
        · left; simp [raceStep, h1]
    · right; right; right; left
      constructor
      · simp [raceStep, threadStep, h1, hg, cleanState]
      · constructor
        · simp [raceStep, threadStep, h1, hg, cleanState]
        · left; simp [raceStep, h0]
  · cases i
    · right; right; left
      refine ⟨?_, ?_, ?_⟩
      · simp [raceStep, threadStep, h0, hg, afterWin, cleanState]
      · simp [raceStep, threadStep, h0, hg, afterWin, cleanState]
      · rcases h1 with h1 | h1 <;> simp [raceStep, h1]
    · rcases h1 with h1 | h1
      · right; left
        refine ⟨?_, ?_, ?_⟩
        · simp [raceStep, threadStep, h1, hg, cleanState, h0]
        · simp [raceStep, threadStep, h1, hg, cleanState]
        · right; simp [raceStep, threadStep, h1, hg, cleanState]
      · right; left
        refine ⟨?_, ?_, ?_⟩
        · simp [raceStep, threadStep, h1, h0]
        · simp [raceStep, threadStep, h1, hg]
        · right; simp [raceStep, threadStep, h1]
  · cases i
    · right; right; left
      refine ⟨?_, ?_, ?_⟩
      · simp [raceStep, threadStep, h0]
      · simp [raceStep, threadStep, h0, hg]
      · rcases h1 with h1 | h1 <;> simp [raceStep, threadStep, h0, hg, h1]
    · rcases h1 with h1 | h1
      · right; right; left
        refine ⟨?_, ?_, ?_⟩
        · simp [raceStep, threadStep, h1, h0]
        · simp [raceStep, threadStep, h1, hg]
        · right; simp [raceStep, threadStep, h1, hg]
      · right; right; left
        refine ⟨?_, ?_, ?_⟩
        · simp [raceStep, threadStep, h1, h0]
        · simp [raceStep, threadStep, h1, hg]
        · right; simp [raceStep, threadStep, h1]
  · cases i
    · rcases h0 with h0 | h0
      · right; right; right; left
        refine ⟨?_, ?_, ?_⟩
        · simp [raceStep, threadStep, h0, h1]
        · simp [raceStep, threadStep, h0, hg, cleanState]
        · right; simp [raceStep, threadStep, h0, hg, cleanState]
      · right; right; right; left
        refine ⟨?_, ?_, ?_⟩
        · simp [raceStep, threadStep, h0, h1]
        · simp [raceStep, threadStep, h0, hg]
        · right; simp [raceStep, threadStep, h0]
    · right; right; right; right
      refine ⟨?_, ?_, ?_⟩
      · simp [raceStep, threadStep, h1, hg, afterWin, cleanState]
      · simp [raceStep, threadStep, h1, hg, afterWin, cleanState]
      · rcases h0 with h0 | h0 <;> simp [raceStep, h0]
  · cases i
    · rcases h0 with h0 | h0
      · right; right; right; right
        refine ⟨?_, ?_, ?_⟩
        · simp [raceStep, threadStep, h0, h1]
        · simp [raceStep, threadStep, h0, hg]
        · right; simp [raceStep, threadStep, h0, hg]
      · right; right; right; right
        refine ⟨?_, ?_, ?_⟩
        · simp [raceStep, threadStep, h0, h1]
        · simp [raceStep, threadStep, h0, hg]
        · right; simp [raceStep, threadStep, h0]
    · right; right; right; right
      refine ⟨?_, ?_, ?_⟩
      · simp [raceStep, threadStep, h1]
      · simp [raceStep, threadStep, h1, hg]
      · rcases h0 with h0 | h0 <;> simp [raceStep, threadStep, h1, hg, h0]

/-- The race invariant holds after any interleaving from the clean start. -/
lemma raceInv_runRace (s0 s1 : Nat) (l0 l1 : LevelFilter) (sched : List Bool)
    (rs : RaceState) (h : RaceInv s0 s1 l0 l1 rs) :
    RaceInv s0 s1 l0 l1 (runRace s0 s1 l0 l1 sched rs) := by
  induction sched generalizing rs with
  | nil => simpa [runRace]
  | cons i rest ih =>
      have := raceInv_step s0 s1 l0 l1 rs i h
      simpa [runRace, List.foldl] using ih (raceStep s0 s1 l0 l1 rs i) this

/-- A single thread step never changes an already-set slot. -/
lemma threadStep_slot_monotone (sink : Nat) (lvl : LevelFilter)
    (g : InstallState) (t : ThreadState) (x : Nat)
    (h : g.innerLogger = some x) :
    (threadStep sink lvl g t).1.innerLogger = some x := by
  cases t with
  | ready => simp [threadStep, h]
  | won =>
      simp only [threadStep, afterWin]
      by_cases hg : g.globalLogger <;> simp [hg, h]
  | done r => simp [threadStep, h]

/-- No interleaving of the race ever changes an already-set slot. -/
lemma runRace_slot_monotone (s0 s1 : Nat) (l0 l1 : LevelFilter)
    (sched : List Bool) (rs : RaceState) (x : Nat)
    (h : rs.global.innerLogger = some x) :
    (runRace s0 s1 l0 l1 sched rs).global.innerLogger = some x := by
  induction sched generalizing rs with
  | nil => simpa [runRace]
  | cons i rest ih =>
      have hstep : (raceStep s0 s1 l0 l1 rs i).global.innerLogger = some x := by
        cases i <;> simp [raceStep] <;>
          [exact threadStep_slot_monotone s0 l0 rs.global rs.t0 x h;
            exact threadStep_slot_monotone s1 l1 rs.global rs.t1 x h]
      simpa [runRace, List.foldl] using ih (raceStep s0 s1 l0 l1 rs i) hstep

/-- C1 (Snapshot fidelity): for every log event delivered through the
pipeline, the record the drain consumer replays into the installed sink —
level, target, rendered message, module path, file, line — equals the
record a direct synchronous call to the sink with the same inputs would
have received; and the message is eagerly rendered to an owned string at
log time whenever it is not already a plain string. -/
theorem c1_snapshot_fidelity (st : LogSystem) (r : InputRecord)
    (hq : st.queue = []) (hr : st.receiverDropped = false) :
    (consumerStep (ThreadedLogger.log st r)).sink.logged
        = st.sink.logged ++ [directRecord r]
      ∧ (r.args.as_str = none → snapArgs r = Cow.owned r.args.format) := by
  constructor
  · have hlog : (ThreadedLogger.log st r).queue = snapshot r :: [] := by
      simp [ThreadedLogger.log, Channel.send, hr, hq]
    rw [consumerStep_cons (ThreadedLogger.log st r) (snapshot r) [] hlog]
    simp [ThreadedLogger.log, Channel.send, hr, replay_snapshot_eq_direct]
  · intro h
    simp [snapArgs, h]

/-- C1 witness: the fidelity theorem applied to a concrete templated
event on a fresh pipeline. -/
theorem c1_snapshot_fidelity_witness :
    sampleSystem.queue = [] ∧ sampleSystem.receiverDropped = false ∧
      ((consumerStep (ThreadedLogger.log sampleSystem sampleRecord)).sink.logged
          = sampleSystem.sink.logged ++ [directRecord sampleRecord]
        ∧ (sampleRecord.args.as_str = none →
            snapArgs sampleRecord = Cow.owned sampleRecord.args.format)) :=
  ⟨rfl, rfl, c1_snapshot_fidelity sampleSystem sampleRecord rfl rfl⟩

/-- C2 (Single-producer ordering): under any interleaving of one producer
issuing `log(e1), ..., log(eN)` with the single drain consumer, once all
events have been produced and the queue has drained, the sink has been
invoked with exactly the corresponding records in the order e1, ..., eN. -/
theorem c2_single_producer_ordering (events : List InputRecord)
    (sched : List SchedAction) (enabledFn : Metadata → Bool)
    (hpend : (runSched sched ⟨events, initSystem enabledFn⟩).pending = [])
    (hq : (runSched sched ⟨events, initSystem enabledFn⟩).sys.queue = []) :
    (runSched sched ⟨events, initSystem enabledFn⟩).sys.sink.logged
      = events.map directRecord := by
  have hinv : ProdInv events ⟨events, initSystem enabledFn⟩ :=
    ⟨rfl, rfl, [], by simp, by simp [obs, initSystem]⟩
  obtain ⟨-, -, produced, hev, hobs⟩ := prodInv_runSched events sched _ hinv
  rw [hpend, List.append_nil] at hev
  subst hev
  rw [obs, hq] at hobs
  simp only [List.map_nil, List.append_nil] at hobs
  rw [hobs]
  exact List.map_congr_left (fun e _ => replay_snapshot_eq_direct e)

/-- C2 witness: two concrete events, produced then drained, reach the
sink in production order. -/
theorem c2_single_producer_ordering_witness :
    (runSched c2sched ⟨c2events, initSystem (fun _ => true)⟩).pending = []
      ∧ (runSched c2sched ⟨c2events, initSystem (fun _ => true)⟩).sys.queue = []
      ∧ (runSched c2sched ⟨c2events, initSystem (fun _ => true)⟩).sys.sink.logged
        = c2events.map directRecord :=
  ⟨rfl, rfl, c2_single_producer_ordering c2events c2sched (fun _ => true) rfl rfl⟩

/-- C3 counterexample: from a process state where no sink slot is set but
a global logger is already registered (so `log::set_boxed_logger` fails),
`try_init` returns an error and yet performs further side effects: the
slot is now set and a drain-consumer task has been spawned. -/
theorem c3_counterexample :
    (try_init 1 LevelFilter.info true
        { innerLogger := none, globalLogger := true
        , maxLevel := LevelFilter.off, consumers := 0 }).1
        = TryInitResult.alreadySet
      ∧ (try_init 1 LevelFilter.info true
          { innerLogger := none, globalLogger := true
          , maxLevel := LevelFilter.off, consumers := 0 }).2.consumers = 1
      ∧ (try_init 1 LevelFilter.info true
          { innerLogger := none, globalLogger := true
          , maxLevel := LevelFilter.off, consumers := 0 }).2.innerLogger
        = some 1 := by
  decide

/-- C3 amended: when `try_init` fails because the sink slot is already
occupied it performs no side effects at all; but on the error path where
the slot was freshly set and registering the process-wide logger fails,
the severity filter is unchanged and no facade logger is registered, yet
the slot keeps the new sink and a drain-consumer task is still spawned. -/
theorem c3_install_failure_effects (sink : Nat) (lvl : LevelFilter)
    (inRuntime : Bool) (st st2 : InstallState) (x : Nat)
    (hx : st2.innerLogger = some x)
    (h1 : st.innerLogger = none) (h2 : st.globalLogger = true) :
    try_init sink lvl inRuntime st2 = (TryInitResult.alreadySet, st2)
      ∧ try_init sink lvl true st
        = (TryInitResult.alreadySet,
            { st with innerLogger := some sink, consumers := st.consumers + 1 }) := by
  constructor
  · simp [try_init, hx]
  · simp [try_init, h1, afterWin, h2]

/-- C3 amended witness: the amended theorem applied to a concrete
occupied-slot state and the concrete registration-failure state. -/
theorem c3_install_failure_effects_witness :
    occupiedState.innerLogger = some 5
    ∧ regFailState.innerLogger = none
    ∧ regFailState.globalLogger = true
    ∧ (try_init 1 LevelFilter.info true occupiedState
        = (TryInitResult.alreadySet, occupiedState)
      ∧ try_init 1 LevelFilter.info true regFailState
        = (TryInitResult.alreadySet,
            { regFailState with
                innerLogger := some 1, consumers := regFailState.consumers + 1 })) :=
  ⟨rfl, rfl, rfl,
    c3_install_failure_effects 1 LevelFilter.info true regFailState occupiedState 5
      rfl rfl rfl⟩

/-- C4 (Install-once invariant): in any interleaving of two racing
`try_init` calls from a clean process state in which both calls finish,
exactly one returns Ok, the other returns the already-installed error,
and the slot holds exactly the sink passed to the successful call;
moreover no interleaving of any race ever alters an already-set slot. -/
theorem c4_install_once (s0 s1 x : Nat) (l0 l1 : LevelFilter)
    (sched sched2 : List Bool) (r0 r1 : TryInitResult) (rs : RaceState)
    (h0 : (runRace s0 s1 l0 l1 sched raceStart).t0 = ThreadState.done r0)
    (h1 : (runRace s0 s1 l0 l1 sched raceStart).t1 = ThreadState.done r1)
    (hx : rs.global.innerLogger = some x) :
    ((r0 = TryInitResult.ok ∧ r1 = TryInitResult.alreadySet ∧
        (runRace s0 s1 l0 l1 sched raceStart).global.innerLogger = some s0)
      ∨ (r1 = TryInitResult.ok ∧ r0 = TryInitResult.alreadySet ∧
        (runRace s0 s1 l0 l1 sched raceStart).global.innerLogger = some s1))
    ∧ (runRace s0 s1 l0 l1 sched2 rs).global.innerLogger = some x := by
  refine ⟨?_, runRace_slot_monotone s0 s1 l0 l1 sched2 rs x hx⟩
  have hinv := raceInv_runRace s0 s1 l0 l1 sched raceStart (Or.inl ⟨rfl, rfl, rfl⟩)
  rcases hinv with ⟨a, b, c⟩ | ⟨a, b, c⟩ | ⟨a, b, c⟩ | ⟨a, b, c⟩ | ⟨a, b, c⟩
  · rw [a] at h0; exact absurd h0 (by simp)
  · rw [a] at h0; exact absurd h0 (by simp)
  · left
    rw [a] at h0
    refine ⟨by simpa using h0.symm, ?_, by rw [b]⟩
    rcases c with c | c
    · rw [c] at h1; exact absurd h1 (by simp)
    · rw [c] at h1; simpa using h1.symm
  · rw [a] at h1; exact absurd h1 (by simp)
  · right
    rw [a] at h1
    refine ⟨by simpa using h1.symm, ?_, by rw [b]⟩
    rcases c with c | c
    · rw [c] at h0; exact absurd h0 (by simp)
    · rw [c] at h0; simpa using h0.symm

/-- C4 witness: a concrete interleaving in which thread 0 wins and
thread 1 loses, together with slot preservation on an occupied slot. -/
theorem c4_install_once_witness :
    (runRace 1 2 LevelFilter.info LevelFilter.debug c4sched raceStart).t0
        = ThreadState.done TryInitResult.ok
    ∧ (runRace 1 2 LevelFilter.info LevelFilter.debug c4sched raceStart).t1
        = ThreadState.done TryInitResult.alreadySet
    ∧ c4rs.global.innerLogger = some 5
    ∧ (((TryInitResult.ok = TryInitResult.ok
          ∧ TryInitResult.alreadySet = TryInitResult.alreadySet
          ∧ (runRace 1 2 LevelFilter.info LevelFilter.debug c4sched raceStart).global.innerLogger
            = some 1)
        ∨ (TryInitResult.alreadySet = TryInitResult.ok
          ∧ TryInitResult.ok = TryInitResult.alreadySet
          ∧ (runRace 1 2 LevelFilter.info LevelFilter.debug c4sched raceStart).global.innerLogger
            = some 2))
      ∧ (runRace 1 2 LevelFilter.info LevelFilter.debug [true] c4rs).global.innerLogger
        = some 5) :=
  ⟨by decide, by decide, rfl,
    c4_install_once 1 2 5 LevelFilter.info LevelFilter.debug c4sched [true]
      TryInitResult.ok TryInitResult.alreadySet c4rs (by decide) (by decide) rfl⟩

/-- Every branch of the consumer-loop body falls through to the next
iteration: the loop contains no break. -/
lemma consumerBody_next (st : LogSystem) : (consumerBody st).1 = LoopControl.next := by
  cases h : Channel.recv st <;> simp [consumerBody, h]

/-- The consumer loop never exits, from any state and after any number of
iterations. -/
lemma runConsumerLoop_never_exits (n : Nat) :
    ∀ st : LogSystem, (runConsumerLoop n st).1 = false := by
  induction n with
  | zero => intro st; rfl
  | succ k ih =>
      intro st
      have hb := consumerBody_next st
      rcases hcb : consumerBody st with ⟨c, st'⟩
      rw [hcb] at hb
      simp only at hb
      subst hb
      simpa [runConsumerLoop, hcb] using ih st'

/-- C5 (consumer shutdown): contrary to the claim, the drain-consumer
loop never exits — no branch of `loop { if let Ok(log) = receiver.recv()
{ log(); } }` breaks; with every sender dropped and the queue empty the
loop spins in place forever without replaying anything, instead of
terminating cleanly. -/
theorem c5_consumer_loop_spins (n m : Nat) (st st2 : LogSystem)
    (hq : st.queue = []) (hs : st.sendersDropped = true) :
    runConsumerLoop n st = (false, st)
      ∧ (runConsumerLoop m st2).1 = false := by
  refine ⟨?_, runConsumerLoop_never_exits m st2⟩
  induction n with
  | zero => rfl
  | succ k ih =>
      have hb : consumerBody st = (LoopControl.next, st) := by
        simp [consumerBody, Channel.recv, hq, hs]
      simpa [runConsumerLoop, hb] using ih

/-- C5 witness: five iterations on the disconnected empty channel change
nothing and never exit; three iterations from the fresh pipeline never
exit either. -/
theorem c5_consumer_loop_spins_witness :
    droppedSendersSystem.queue = []
      ∧ droppedSendersSystem.sendersDropped = true
      ∧ (runConsumerLoop 5 droppedSendersSystem = (false, droppedSendersSystem)
        ∧ (runConsumerLoop 3 sampleSystem).1 = false) :=
  ⟨rfl, rfl, c5_consumer_loop_spins 5 3 droppedSendersSystem sampleSystem rfl rfl⟩

/-- C6 (flush is not a barrier): every `ThreadedLogger::flush` call
delegates synchronously to the inner sink flush and touches neither the
queue of pending snapshots nor the records already replayed; in the
concrete execution where one event has been logged but not yet drained,
the flush reaches the sink while the sink has not yet received the
event, which is still queued. -/
theorem c6_flush_not_barrier (st : LogSystem) :
    ThreadedLogger.flush st
        = { st with sink := { st.sink with flushes := st.sink.flushes + 1 } }
      ∧ (ThreadedLogger.flush (ThreadedLogger.log sampleSystem sampleRecord)).sink.flushes = 1
      ∧ (ThreadedLogger.flush (ThreadedLogger.log sampleSystem sampleRecord)).sink.logged = []
      ∧ (ThreadedLogger.flush (ThreadedLogger.log sampleSystem sampleRecord)).queue
        = [snapshot sampleRecord] :=
  ⟨rfl, rfl, rfl, rfl⟩

/-- C7 (install_or_panic equivalence): `init` behaves exactly as
`try_init` followed by treating any returned error (or propagated panic)
as fatal: same resulting process state, and a panic outcome exactly when
`try_init` does not return Ok. -/
theorem c7_init_equiv (sink : Nat) (lvl : LevelFilter) (inRuntime : Bool)
    (st : InstallState) :
    init sink lvl inRuntime st = initSpec sink lvl inRuntime st
      ∧ (init sink lvl inRuntime st).2 = (try_init sink lvl inRuntime st).2 := by
  unfold init initSpec
  rcases h : try_init sink lvl inRuntime st with ⟨r, st'⟩
  cases r <;> simp

/-- C8 (enabled delegation): `ThreadedLogger::enabled` returns exactly
what the inner sink enablement check returns on the same metadata and
performs no state change at all — in particular nothing is enqueued on
the dispatch channel. -/
theorem c8_enabled_delegates (st : LogSystem) (m : Metadata) :
    (ThreadedLogger.enabled st m).1 = st.enabledFn m
      ∧ (ThreadedLogger.enabled st m).2 = st
      ∧ (ThreadedLogger.enabled st m).2.queue = st.queue :=
  ⟨rfl, rfl, rfl⟩

/-- C9 (silent drop on closed channel): when the receiver side of the
dispatch channel has been dropped, `ThreadedLogger::log` discards the
send error with `.ok()` and returns normally, leaving the whole state
unchanged — the snapshot is silently lost, with no error and no panic
(the function is total). -/
theorem c9_silent_drop (st : LogSystem) (r : InputRecord)
    (h : st.receiverDropped = true) :
    ThreadedLogger.log st r = st := by
  simp [ThreadedLogger.log, Channel.send, h]

/-- C9 witness: logging a concrete event into the dropped-receiver
pipeline is a no-op. -/
theorem c9_silent_drop_witness :
    droppedReceiverSystem.receiverDropped = true
      ∧ ThreadedLogger.log droppedReceiverSystem sampleRecord = droppedReceiverSystem :=
  ⟨rfl, c9_silent_drop droppedReceiverSystem sampleRecord rfl⟩

/-- C10 (runtime-context precondition): on a first, otherwise-valid
install from a clean process state, `try_init` reaches
`tokio::task::spawn_blocking` unconditionally, so without an active Tokio
runtime it panics (no consumer is running), whereas the same call inside
a runtime returns Ok. -/
theorem c10_tokio_runtime_precondition (sink : Nat) (lvl : LevelFilter) :
    (try_init sink lvl false cleanState).1 = TryInitResult.panicked
      ∧ (try_init sink lvl false cleanState).2.consumers = 0
      ∧ (try_init sink lvl true cleanState).1 = TryInitResult.ok := by
  refine ⟨?_, ?_, ?_⟩ <;> simp [try_init, cleanState, afterWin]
